import Mathlib

/-!
Formal verification of the libmngmt book-management service: a shallow Lean 4
embedding of the concurrency-and-caching subsystem (hybrid two-tier cache,
bounded worker pool, and the book service operations built on them), with
theorems settling the behavioural claims of the specification against the
Go source.

Conventions of the embedding:
- Go strings are Lean `String`; Go `len` on strings is UTF-8 byte length,
  modelled by `utf8Len`.
- Go `int` is Lean `Int`; machine-width overflow never matters for the
  quantities involved (lengths, limits, offsets).
- 32-bit and 64-bit modular arithmetic inside MD5 is `Nat` with explicit
  `% 2^32` / `% 2^64`.
- Maps (the in-memory cache tier, the external cache-store) are functions
  `String → Option _`; channel/goroutine behaviour is modelled by explicit
  step relations or by enumerating the outcomes Go's `select` statement may
  choose among.
- Fallible operations return `Except`/`Option`; a Go runtime panic is a
  distinguished outcome (`none` / a dedicated constructor), never silently
  dropped.
-/

namespace Libmngmt

/-! ## Go string primitives -/

/-- UTF-8 encoding of one Unicode scalar value, as byte values. -/
def utf8EncodeChar (n : Nat) : List Nat :=
  if n < 128 then [n]
  else if n < 2048 then [192 + n / 64, 128 + n % 64]
  else if n < 65536 then [224 + n / 4096, 128 + (n / 64) % 64, 128 + n % 64]
  else [240 + n / 262144, 128 + (n / 4096) % 64, 128 + (n / 64) % 64, 128 + n % 64]

/-- The UTF-8 bytes of a string, exactly what Go's byte-slice conversion of a
string yields. -/
def utf8Bytes (s : String) : List Nat :=
  s.data.foldr (fun c acc => utf8EncodeChar c.toNat ++ acc) []

/-- Go `len` applied to a string: the number of UTF-8 bytes. -/
def utf8Len (s : String) : Nat := (utf8Bytes s).length

/-- The ASCII whitespace characters Go's strings.TrimSpace strips (the keys and
fields exercised here are ASCII; the wider Unicode space classes never occur). -/
def goIsSpace (c : Char) : Bool :=
  (c == ' ') || (c == '\t') || (c == '\n') || (c == '\r')

/-- Model of Go strings.TrimSpace: strip leading and trailing whitespace. -/
def goTrimSpace (s : String) : String :=
  String.mk (((s.data.dropWhile goIsSpace).reverse.dropWhile goIsSpace).reverse)

/-! ## MD5 (crypto/md5), used by the list-cache key

The cache derives list keys by hashing a canonical filter string with MD5 and
hex-encoding the digest. The embedding implements MD5 executably so concrete
keys evaluate inside the kernel. -/

/-- Addition modulo 2^32. -/
def add32 (a b : Nat) : Nat := (a + b) % 4294967296

/-- Left rotation of a 32-bit word. -/
def rotl32 (x n : Nat) : Nat := (((x <<< n) % 4294967296) ||| (x >>> (32 - n)))

/-- The 64 MD5 sine-derived round constants. -/
def md5K : List Nat :=
  [0xd76aa478, 0xe8c7b756, 0x242070db, 0xc1bdceee,
   0xf57c0faf, 0x4787c62a, 0xa8304613, 0xfd469501,
   0x698098d8, 0x8b44f7af, 0xffff5bb1, 0x895cd7be,
   0x6b901122, 0xfd987193, 0xa679438e, 0x49b40821,
   0xf61e2562, 0xc040b340, 0x265e5a51, 0xe9b6c7aa,
   0xd62f105d, 0x02441453, 0xd8a1e681, 0xe7d3fbc8,
   0x21e1cde6, 0xc33707d6, 0xf4d50d87, 0x455a14ed,
   0xa9e3e905, 0xfcefa3f8, 0x676f02d9, 0x8d2a4c8a,
   0xfffa3942, 0x8771f681, 0x6d9d6122, 0xfde5380c,
   0xa4beea44, 0x4bdecfa9, 0xf6bb4b60, 0xbebfbc70,
   0x289b7ec6, 0xeaa127fa, 0xd4ef3085, 0x04881d05,
   0xd9d4d039, 0xe6db99e5, 0x1fa27cf8, 0xc4ac5665,
   0xf4292244, 0x432aff97, 0xab9423a7, 0xfc93a039,
   0x655b59c3, 0x8f0ccc92, 0xffeff47d, 0x85845dd1,
   0x6fa87e4f, 0xfe2ce6e0, 0xa3014314, 0x4e0811a1,
   0xf7537e82, 0xbd3af235, 0x2ad7d2bb, 0xeb86d391]

/-- The 64 MD5 per-round rotation amounts. -/
def md5S : List Nat :=
  [7, 12, 17, 22, 7, 12, 17, 22, 7, 12, 17, 22, 7, 12, 17, 22,
   5, 9, 14, 20, 5, 9, 14, 20, 5, 9, 14, 20, 5, 9, 14, 20,
   4, 11, 16, 23, 4, 11, 16, 23, 4, 11, 16, 23, 4, 11, 16, 23,
   6, 10, 15, 21, 6, 10, 15, 21, 6, 10, 15, 21, 6, 10, 15, 21]

/-- Round function F (rounds 0-15). Complement is XOR with the 32-bit mask. -/
def md5F (b c d : Nat) : Nat := (b &&& c) ||| ((b ^^^ 0xffffffff) &&& d)

/-- Round function G (rounds 16-31). -/
def md5G (b c d : Nat) : Nat := (d &&& b) ||| ((d ^^^ 0xffffffff) &&& c)

/-- Round function H (rounds 32-47). -/
def md5H (b c d : Nat) : Nat := b ^^^ c ^^^ d

/-- Round function I (rounds 48-63). -/
def md5I (b c d : Nat) : Nat := c ^^^ (b ||| (d ^^^ 0xffffffff))

/-- One MD5 round step on the (A, B, C, D) state, with `w` the sixteen
message words of the current block and `i` the round index. -/
def md5Round (w : List Nat) (st : Nat × Nat × Nat × Nat) (i : Nat) :
    Nat × Nat × Nat × Nat :=
  let a := st.1
  let b := st.2.1
  let c := st.2.2.1
  let d := st.2.2.2
  let fg : Nat × Nat :=
    if i < 16 then (md5F b c d, i)
    else if i < 32 then (md5G b c d, (5 * i + 1) % 16)
    else if i < 48 then (md5H b c d, (3 * i + 5) % 16)
    else (md5I b c d, (7 * i) % 16)
  let tmp := add32 (add32 (add32 a fg.1) (md5K.getD i 0)) (w.getD fg.2 0)
  (d, add32 b (rotl32 tmp (md5S.getD i 0)), b, c)

/-- Process one 64-byte block: split into sixteen little-endian words, run the
64 rounds, and add the result into the chaining state. -/
def md5Block (st : Nat × Nat × Nat × Nat) (block : List Nat) :
    Nat × Nat × Nat × Nat :=
  let w := (List.range 16).map fun j =>
    block.getD (4 * j) 0 + 256 * block.getD (4 * j + 1) 0 +
      65536 * block.getD (4 * j + 2) 0 + 16777216 * block.getD (4 * j + 3) 0
  let r := (List.range 64).foldl (md5Round w) st
  (add32 st.1 r.1, add32 st.2.1 r.2.1, add32 st.2.2.1 r.2.2.1,
   add32 st.2.2.2 r.2.2.2)

/-- The eight little-endian bytes of a 64-bit length field. -/
def le64 (n : Nat) : List Nat := (List.range 8).map fun j => (n >>> (8 * j)) % 256

/-- The four little-endian bytes of a 32-bit state word. -/
def le32 (n : Nat) : List Nat := (List.range 4).map fun j => (n >>> (8 * j)) % 256

/-- MD5 padding: a 0x80 byte, zeros to 56 mod 64, then the bit length as a
little-endian 64-bit value. -/
def md5Pad (ms : List Nat) : List Nat :=
  ms ++ [128] ++ List.replicate ((119 - ms.length % 64) % 64) 0 ++
    le64 ((8 * ms.length) % 18446744073709551616)

/-- Chop a byte list into 64-byte blocks. Structural recursion on a fuel
bound: each step consumes 64 bytes, so the length of the list is always
enough fuel. -/
def toBlocksFuel : Nat → List Nat → List (List Nat)
  | 0, _ => []
  | _ + 1, [] => []
  | fuel + 1, b :: bs => (b :: bs).take 64 :: toBlocksFuel fuel ((b :: bs).drop 64)

/-- Chop a byte list into 64-byte blocks. -/
def toBlocks (bs : List Nat) : List (List Nat) := toBlocksFuel bs.length bs

/-- The 16-byte MD5 digest of a byte sequence. -/
def md5Bytes (ms : List Nat) : List Nat :=
  let st := (toBlocks (md5Pad ms)).foldl md5Block
    (0x67452301, 0xefcdab89, 0x98badcfe, 0x10325476)
  le32 st.1 ++ le32 st.2.1 ++ le32 st.2.2.1 ++ le32 st.2.2.2

/-- Lowercase hex digit for a value below 16, as Go fmt %x renders it. -/
def hexDigitChar (d : Nat) : Char :=
  if d < 10 then Char.ofNat (48 + d) else Char.ofNat (87 + d)

/-- Two lowercase hex characters of one byte. -/
def byteHex (b : Nat) : List Char := [hexDigitChar (b / 16), hexDigitChar (b % 16)]

/-- Lowercase hex string of a byte sequence (Go fmt %x on a byte slice). -/
def bytesHex (bs : List Nat) : String :=
  String.mk (bs.foldr (fun b acc => byteHex b ++ acc) [])

/-- Hex-encoded MD5 of a string, as Go fmt.Sprintf %x of md5.Sum. -/
def md5hex (s : String) : String := bytesHex (md5Bytes (utf8Bytes s))

/-! ## Decimal rendering (Go fmt %d / strconv) -/

/-- The ASCII character of a decimal digit. -/
def digitChar (d : Nat) : Char := Char.ofNat (48 + d)

/-- Big-endian decimal digit characters of a natural number, structurally
recursive on a fuel bound (each step divides by ten, so n + 1 is enough). -/
def natCharsFuel : Nat → Nat → List Char
  | 0, _ => []
  | fuel + 1, n =>
    if n < 10 then [digitChar n]
    else natCharsFuel fuel (n / 10) ++ [digitChar (n % 10)]

/-- Big-endian decimal digit characters of a natural number. -/
def natChars (n : Nat) : List Char := natCharsFuel (n + 1) n

/-- Decimal string of a natural number. -/
def natToString (n : Nat) : String := String.mk (natChars n)

/-- Decimal string of an integer, as Go fmt %d renders an int. -/
def intToString (n : Int) : String :=
  if n < 0 then "-" ++ natToString (-n).toNat else natToString n.toNat

/-- Model of Go strconv.FormatBool. -/
def formatBool (b : Bool) : String := if b then "true" else "false"

/-! ## Data model (internal/models) -/

/-- A book record. Timestamps and the publication date are abstract instants
(Nat); identifiers are their Go string forms. -/
structure Book where
  id : String
  title : String
  author : String
  isbn : String
  publisher : String
  genre : String
  publishedAt : Nat
  pages : Int
  language : String
  available : Bool
  createdAt : Nat
  updatedAt : Nat
deriving DecidableEq, Repr

/-- The create-book request payload. -/
structure CreateBookRequest where
  title : String
  author : String
  isbn : String
  publisher : String
  genre : String
  publishedAt : Nat
  pages : Int
  language : String
deriving DecidableEq, Repr

/-- Filter parameters of a list query. -/
structure BookFilter where
  author : String
  genre : String
  language : String
  available : Option Bool
  limit : Int
  offset : Int
deriving DecidableEq, Repr

/-- The paginated list-response envelope. -/
structure BooksListResponse where
  books : List Book
  total : Int
  limit : Int
  offset : Int
deriving DecidableEq, Repr

/-! ## Hybrid cache (internal/cache)

Both tiers are modelled as maps from key strings to entries carrying a payload
and an absolute expiry instant. The external tier (Redis) stores single books
under the key built by RedisCache (book: plus the id) and list responses under
the caller-supplied key; the local tier stores books under the bare id string
and lists under the generated list key. An entry is live at instant t unless
t is strictly after its expiry, matching time.Now().After(ExpiresAt). -/

/-- Payload of a cache entry: a single book or a list response. -/
inductive EntryData where
  | bookData (b : Book)
  | listData (r : BooksListResponse)
deriving DecidableEq, Repr

/-- A cache entry with its absolute expiry instant. -/
structure CacheEntry where
  data : EntryData
  expiresAt : Nat
deriving DecidableEq, Repr

/-- State of the hybrid BookCache: the external tier map, the local in-memory
map, the TTL, whether the external tier is in use, and the shutdown flags
(context cancelled, cleanup channel closed, external connection closed). -/
structure CacheState where
  redis : String → Option CacheEntry
  inMemory : String → Option CacheEntry
  ttl : Nat
  useRedis : Bool
  cancelled : Bool
  cleanupClosed : Bool
  redisClosed : Bool

/-- The canonical filter string hashed for the list key, exactly the
fmt.Sprintf format of GenerateBookListKey, with the availability field the
empty string when unset and strconv.FormatBool of the value otherwise. -/
def filterString (f : BookFilter) : String :=
  let availableStr := match f.available with
    | some b => formatBool b
    | none => ""
  "author:" ++ f.author ++ "|genre:" ++ f.genre ++ "|language:" ++ f.language ++
    "|available:" ++ availableStr ++ "|limit:" ++ intToString f.limit ++
    "|offset:" ++ intToString f.offset

/-- GenerateBookListKey: books: followed by the hex MD5 of the filter string. -/
def generateBookListKey (f : BookFilter) : String :=
  "books:" ++ md5hex (filterString f)

/-- Modelled from the spec wording alone, for comparison: the list key is
books: plus hex(md5("author:%s|genre:%s|language:%s|available:%s|limit:%d|offset:%d"))
where the availability placeholder is empty when unset, else true/false. -/
def specListKey (f : BookFilter) : String :=
  "books:" ++ md5hex ("author:" ++ f.author ++ "|genre:" ++ f.genre ++
    "|language:" ++ f.language ++ "|available:" ++
    (match f.available with
     | none => ""
     | some true => "true"
     | some false => "false") ++
    "|limit:" ++ intToString f.limit ++ "|offset:" ++ intToString f.offset)

/-- The external-tier key RedisCache builds for a single book id. -/
def redisBookKey (id : String) : String := "book:" ++ id

/-- Matching of the only SCAN patterns the code uses (a literal followed by a
trailing star): the key must start with the literal part. -/
def globStarMatch (pat key : String) : Bool :=
  if pat.data.getLast? = some '*' then pat.data.dropLast.isPrefixOf key.data
  else pat == key

/-- Look up a live entry in the given tier map at instant t. -/
def liveEntry (tier : String → Option CacheEntry) (key : String) (t : Nat) :
    Option CacheEntry :=
  match tier key with
  | none => none
  | some e => if t > e.expiresAt then none else some e

/-- BookCache.GetBook: the external tier first when in use, otherwise or on
miss the local tier; only a book-typed live entry produces a hit. -/
def cacheGetBook (c : CacheState) (id : String) (t : Nat) : Option Book :=
  let viaLocal : Option Book :=
    match liveEntry c.inMemory id t with
    | some e => match e.data with
      | .bookData b => some b
      | .listData _ => none
    | none => none
  if c.useRedis then
    match liveEntry c.redis (redisBookKey id) t with
    | some e => match e.data with
      | .bookData b => some b
      | .listData _ => viaLocal
    | none => viaLocal
  else viaLocal

/-- BookCache.SetBook: write to the external tier when in use and the write
succeeds (best-effort: a failed external write is logged and ignored), and
unconditionally to the local tier, both with expiry now + TTL. -/
def cacheSetBook (c : CacheState) (b : Book) (now : Nat) (redisOk : Bool) :
    CacheState :=
  { c with
    redis := if c.useRedis && redisOk then
        fun k => if k = redisBookKey b.id then some ⟨.bookData b, now + c.ttl⟩
          else c.redis k
      else c.redis,
    inMemory := fun k =>
      if k = b.id then some ⟨.bookData b, now + c.ttl⟩ else c.inMemory k }

/-- BookCache.GetBookList: same two-tier lookup keyed by the generated list
key in both tiers. -/
def cacheGetBookList (c : CacheState) (f : BookFilter) (t : Nat) :
    Option BooksListResponse :=
  let key := generateBookListKey f
  let viaLocal : Option BooksListResponse :=
    match liveEntry c.inMemory key t with
    | some e => match e.data with
      | .listData r => some r
      | .bookData _ => none
    | none => none
  if c.useRedis then
    match liveEntry c.redis key t with
    | some e => match e.data with
      | .listData r => some r
      | .bookData _ => viaLocal
    | none => viaLocal
  else viaLocal

/-- BookCache.SetBookList: write the response under the generated key to the
external tier (best-effort) and to the local tier, expiry now + TTL. -/
def cacheSetBookList (c : CacheState) (f : BookFilter) (r : BooksListResponse)
    (now : Nat) (redisOk : Bool) : CacheState :=
  let key := generateBookListKey f
  { c with
    redis := if c.useRedis && redisOk then
        fun k => if k = key then some ⟨.listData r, now + c.ttl⟩ else c.redis k
      else c.redis,
    inMemory := fun k =>
      if k = key then some ⟨.listData r, now + c.ttl⟩ else c.inMemory k }

/-- BookCache.InvalidateBook: in the external tier, delete the book key and
scan-delete every key matching books:*; in the local tier, delete the bare id
key and every key whose byte length is 32 (the code comment assumes list keys
are bare 32-character MD5 hashes). -/
def invalidateBook (c : CacheState) (id : String) : CacheState :=
  { c with
    redis := if c.useRedis then
        fun k =>
          if k = redisBookKey id then none
          else if globStarMatch "books:*" k then none
          else c.redis k
      else c.redis,
    inMemory := fun k =>
      if k = id then none
      else if utf8Len k = 32 then none
      else c.inMemory k }

/-- BookCache.Clear: delete every key matching book:* or books:* from the
external tier (the code does this on a background goroutine; the map shown is
the one after that deletion completes) and empty the local tier entirely. -/
def cacheClear (c : CacheState) : CacheState :=
  { c with
    redis := if c.useRedis then
        fun k =>
          if globStarMatch "book:*" k || globStarMatch "books:*" k then none
          else c.redis k
      else c.redis,
    inMemory := fun _ => none }

/-- BookCache.Shutdown: cancel the context, close the cleanup channel, and
close the external connection when in use. Go panics on closing an already
closed channel, so a second shutdown of the same state is the none outcome. -/
def cacheShutdown (c : CacheState) : Option CacheState :=
  if c.cleanupClosed then none
  else some { c with
    cancelled := true,
    cleanupClosed := true,
    redisClosed := c.redisClosed || c.useRedis }

/-! ## Repository (internal/repository) and service (internal/service)

The repository is the Postgres-backed store, modelled as the list of stored
rows plus an id supply for uuid.New. The books table declares the isbn column
UNIQUE, so an insert whose isbn equals a stored row fails with a database
error (surfaced by CreateBook wrapped as a repository failure, distinct from
the conflict error of the explicit uniqueness check). -/

/-- normalizeISBN: remove every hyphen and space (strings.ReplaceAll with the
empty replacement). -/
def normalizeISBN (isbn : String) : String :=
  String.mk (isbn.data.filter fun c => !(c == '-' || c == ' '))

/-- isValidISBN: the normalized form has exactly 10 or 13 characters. -/
def isValidISBN (isbn : String) : Bool :=
  let n := normalizeISBN isbn
  n.length == 10 || n.length == 13

/-- normalizeBookData: trim the text fields and normalize the ISBN. -/
def normalizeBookData (req : CreateBookRequest) : CreateBookRequest :=
  { req with
    title := goTrimSpace req.title,
    author := goTrimSpace req.author,
    isbn := normalizeISBN req.isbn,
    publisher := goTrimSpace req.publisher,
    genre := goTrimSpace req.genre,
    language := goTrimSpace req.language }

/-- The repository state: stored rows and the next fresh id. -/
structure Repo where
  books : List Book
  nextId : String
deriving Repr

/-- bookRepository.ExistsByISBN with a nil exclude id: a literal string
equality test against the stored isbn column (SELECT COUNT(*) WHERE isbn = $1). -/
def existsByISBN (r : Repo) (isbn : String) : Bool :=
  r.books.any fun b => b.isbn == isbn

/-- bookRepository.Create: build the row (availability defaults to true, the
language defaults to English when empty) and insert it; the UNIQUE constraint
on the isbn column rejects a duplicate with a database error. -/
def repoCreate (r : Repo) (req : CreateBookRequest) (now : Nat) :
    Except String (Book × Repo) :=
  let book : Book :=
    { id := r.nextId, title := req.title, author := req.author,
      isbn := req.isbn, publisher := req.publisher, genre := req.genre,
      publishedAt := req.publishedAt, pages := req.pages,
      language := if req.language = "" then "English" else req.language,
      available := true, createdAt := now, updatedAt := now }
  if r.books.any fun b => b.isbn == req.isbn then
    Except.error "pq: duplicate key value violates unique constraint"
  else
    Except.ok (book, { books := r.books ++ [book], nextId := r.nextId })

/-- Errors the service returns from CreateBook. -/
inductive SvcErr where
  | validationErr (msg : String)
  | conflictErr (isbn : String)
  | repoErr (msg : String)
deriving DecidableEq, Repr

/-- Combined service-visible state: repository rows and the cache. -/
structure SvcState where
  repo : Repo
  cache : CacheState

/-- bookService.CreateBook. In source order: the three concurrent field
validations (their individual error messages may surface in any order; all
pass in every scenario proved here), then the ISBN uniqueness check against
the repository on the raw request ISBN, then normalizeBookData, then the
repository insert, then on success SetBook followed by Clear on the cache and
a best-effort notify-job submission whose outcome (submitOk) is discarded. -/
def createBook (st : SvcState) (req : CreateBookRequest) (now : Nat)
    (redisOk : Bool) (submitOk : Bool) : Except SvcErr Book × SvcState :=
  if goTrimSpace req.title = "" then
    (Except.error (.validationErr "title is required"), st)
  else if goTrimSpace req.author = "" then
    (Except.error (.validationErr "author is required"), st)
  else if goTrimSpace req.isbn = "" then
    (Except.error (.validationErr "ISBN is required"), st)
  else if !isValidISBN (normalizeISBN req.isbn) then
    (Except.error (.validationErr "invalid ISBN format"), st)
  else if existsByISBN st.repo req.isbn then
    (Except.error (.conflictErr req.isbn), st)
  else
    let nr := normalizeBookData req
    match repoCreate st.repo nr now with
    | .error msg => (Except.error (.repoErr msg), st)
    | .ok (book, repo2) =>
      let _ := submitOk
      let cache2 := cacheClear (cacheSetBook st.cache book now redisOk)
      (Except.ok book, { repo := repo2, cache := cache2 })

/-- The default replacement GetAllBooks applies to the filter pagination:
a limit at most 0 or above 100 becomes 50, a negative offset becomes 0. -/
def clampFilter (f : BookFilter) : BookFilter :=
  { f with
    limit := if f.limit ≤ 0 || f.limit > 100 then 50 else f.limit,
    offset := if f.offset < 0 then 0 else f.offset }

/-- bookService.GetAllBooks: cache-first on the raw filter key; on a miss,
replace an out-of-range limit (at most 0, or above 100) by the default 50 and
a negative offset by 0, query the repository with the adjusted filter, build
the envelope from the returned page, total and the adjusted pagination
values, and cache it under the adjusted filter before returning. -/
def getAllBooks (c : CacheState) (repoGetAll : BookFilter → List Book × Int)
    (f : BookFilter) (now : Nat) (redisOk : Bool) :
    BooksListResponse × CacheState :=
  match cacheGetBookList c f now with
  | some r => (r, c)
  | none =>
    let f2 := clampFilter f
    let q := repoGetAll f2
    let resp : BooksListResponse :=
      { books := q.1, total := q.2, limit := f2.limit, offset := f2.offset }
    (resp, cacheSetBookList c f2 resp now redisOk)

/-! ## BulkCreateBooks result collection

The bulk create fans each request out to CreateBook under a semaphore of
capacity 10, sends each outcome tagged with its original index through a
buffered channel, and folds the received results into the two preallocated
slices by that index. Goroutine completion order determines only the order in
which tagged results arrive, so the channel contents form some permutation of
the indexed per-request outcomes. -/

/-- The per-request outcome of CreateBook. -/
abbrev CreateResult := Except SvcErr Book

/-- The book slot written for one outcome (nil pointer on failure). -/
def resBook : CreateResult → Option Book
  | .ok b => some b
  | .error _ => none

/-- The error slot written for one outcome (nil on success). -/
def resErr : CreateResult → Option SvcErr
  | .ok _ => none
  | .error e => some e

/-- The collection loop of BulkCreateBooks: fold the received tagged results
into the two slices, assigning each at its original index. -/
def collectResults (n : Nat) (recv : List (Nat × CreateResult)) :
    List (Option Book) × List (Option SvcErr) :=
  recv.foldl
    (fun acc ir => (acc.1.set ir.1 (resBook ir.2), acc.2.set ir.1 (resErr ir.2)))
    (List.replicate n none, List.replicate n none)

/-- The indexed per-request outcomes, in request order. -/
def indexedResults (rs : List CreateResult) : List (Nat × CreateResult) :=
  (List.range rs.length).zip rs

/-- Capacity of the bulk-create concurrency semaphore (make(chan struct, 10)). -/
def bulkSemaphoreCap : Nat := 10

/-! ## Worker pool (internal/workers)

SubmitJob is a select with a send case on the job queue, a receive case on
the cancelled-context channel, and a default case. Go select semantics: every
ready case may be chosen (uniformly at random when several are ready); a send
on a closed channel counts as ready and panics when chosen; the default runs
only when no other case is ready. Stop cancels the context, then closes the
job queue, then waits for the workers. -/

/-- The pool state SubmitJob observes: buffered queue length, queue capacity,
whether the queue channel has been closed, whether the context is cancelled. -/
structure PoolState where
  qLen : Nat
  cap : Nat
  closed : Bool
  cancelled : Bool
deriving DecidableEq, Repr

/-- Possible outcomes of one SubmitJob call. -/
inductive SubmitOutcome where
  | enqueued
  | errShuttingDown
  | errQueueFull
  | panicked
deriving DecidableEq, Repr

/-- The set of outcomes Go's select statement may produce for SubmitJob in
the given pool state, by the readiness rules above. -/
def submitOutcomes (p : PoolState) : List SubmitOutcome :=
  let sendCase : List SubmitOutcome :=
    if p.closed then [.panicked]
    else if p.qLen < p.cap then [.enqueued]
    else []
  let doneCase : List SubmitOutcome :=
    if p.cancelled then [.errShuttingDown] else []
  let ready := sendCase ++ doneCase
  if ready = [] then [.errQueueFull] else ready

/-- A background job, identified by its id. -/
structure WJob where
  jobId : String
deriving DecidableEq, Repr

/-- State of one worker loop together with its queue: the buffered jobs, the
channel flags, whether this worker has returned, and the jobs it processed. -/
structure WState where
  queue : List WJob
  closed : Bool
  cancelled : Bool
  exited : Bool
  processed : List WJob
deriving DecidableEq, Repr

/-- One iteration of the worker loop, as the choices its outer select (receive
a job, or observe the cancelled context) and inner select (forward the result,
or observe the cancelled context and return) may make. Receiving is ready when
a job is buffered, or when the queue is closed and empty (the ok=false arm);
the context arm is ready whenever the context is cancelled. processJob runs to
completion before the next select, so a received job is always recorded. -/
inductive WStep : WState → WState → Prop where
  | recvJob (s : WState) (j : WJob) (rest : List WJob) :
      s.queue = j :: rest → s.exited = false →
      WStep s { s with queue := rest, processed := s.processed ++ [j] }
  | recvJobThenExit (s : WState) (j : WJob) (rest : List WJob) :
      s.queue = j :: rest → s.exited = false → s.cancelled = true →
      WStep s { s with queue := rest, processed := s.processed ++ [j],
                       exited := true }
  | recvClosedEmpty (s : WState) :
      s.queue = [] → s.closed = true → s.exited = false →
      WStep s { s with exited := true }
  | ctxExit (s : WState) :
      s.cancelled = true → s.exited = false →
      WStep s { s with exited := true }

/-- The worker-side state right after Stop has cancelled the context and
closed the queue, with the given jobs still buffered. -/
def stopState (buffered : List WJob) : WState :=
  { queue := buffered, closed := true, cancelled := true,
    exited := false, processed := [] }

/-! ## Proof-side helpers -/

/-- Index-keyed assignment fold, the shape of each slice written by the
collection loop of BulkCreateBooks. -/
def setFold {α : Type} (l : List (Nat × α)) (init : List α) : List α :=
  l.foldl (fun acc iv => acc.set iv.1 iv.2) init

/-- Decimal re-reading of a digit-character list, used to invert natChars. -/
def parseNat (cs : List Char) : Nat :=
  cs.foldl (fun a c => 10 * a + (c.toNat - 48)) 0

/-! ## Concrete fixtures for the evaluated scenarios -/

/-- A fresh hybrid cache with the external tier reachable and a 600-second
TTL (the production configuration of NewBookCache). -/
def emptyCache : CacheState :=
  { redis := fun _ => none, inMemory := fun _ => none, ttl := 600,
    useRedis := true, cancelled := false, cleanupClosed := false,
    redisClosed := false }

/-- The all-defaults list filter. -/
def emptyFilter : BookFilter :=
  { author := "", genre := "", language := "", available := none,
    limit := 0, offset := 0 }

/-- A create request with a valid ISBN-10 written without separators. -/
def req1 : CreateBookRequest :=
  { title := "SICP", author := "Abelson", isbn := "0306406152",
    publisher := "MIT", genre := "CS", publishedAt := 0, pages := 300,
    language := "English" }

/-- The same book with the same ISBN spelled with hyphens: it normalizes to
the ISBN of req1. -/
def req2 : CreateBookRequest := { req1 with isbn := "0-306-40615-2" }

/-- An empty repository with a fixed fresh uuid, paired with a fresh cache. -/
def st0 : SvcState :=
  { repo := { books := [], nextId := "123e4567-e89b-12d3-a456-426614174000" },
    cache := emptyCache }

/-- The row repoCreate builds for req1 in st0. -/
def book0 : Book :=
  { id := "123e4567-e89b-12d3-a456-426614174000", title := "SICP",
    author := "Abelson", isbn := "0306406152", publisher := "MIT",
    genre := "CS", publishedAt := 0, pages := 300, language := "English",
    available := true, createdAt := 0, updatedAt := 0 }

/-- A list response caching book0 under the empty filter. -/
def resp0 : BooksListResponse :=
  { books := [book0], total := 1, limit := 50, offset := 0 }

/-- A cache holding book0 and the cached empty-filter list in both tiers. -/
def cache1 : CacheState :=
  cacheSetBookList (cacheSetBook emptyCache book0 0 true) emptyFilter resp0 0 true

/-- An older version of book0, as a stale external-tier value. -/
def staleBook : Book := { book0 with title := "SICP first edition" }

/-- A cache whose external tier still holds the stale row for book0's id. -/
def cacheStale : CacheState :=
  { emptyCache with
    redis := fun k =>
      if k = redisBookKey book0.id then some ⟨.bookData staleBook, 1000⟩
      else none }

/-- A background job fixture. -/
def job1 : WJob := { jobId := "job-1" }

/-! ## Claim theorems -/

set_option maxRecDepth 100000

/-- Decidable equality of per-request outcomes, for evaluated scenarios. -/
instance : DecidableEq (Except SvcErr Book) := fun a b =>
  match a, b with
  | .ok x, .ok y => if h : x = y then isTrue (by rw [h]) else isFalse (by simp [h])
  | .error x, .error y => if h : x = y then isTrue (by rw [h]) else isFalse (by simp [h])
  | .ok _, .error _ => isFalse (by simp)
  | .error _, .ok _ => isFalse (by simp)

/-- C10: BookCache.Shutdown is safe to call exactly once but not idempotent:
from any state whose cleanup channel is still open, the first call succeeds,
cancels the context, closes the cleanup channel, and closes the external
connection when the external tier is in use; a second call on the resulting
state panics (close of an already closed channel), the none outcome. -/
theorem cacheShutdown_single_use (c : CacheState) (h : c.cleanupClosed = false) :
    ∃ c2, cacheShutdown c = some c2 ∧ c2.cancelled = true ∧
      c2.cleanupClosed = true ∧ c2.redisClosed = (c.redisClosed || c.useRedis) ∧
      cacheShutdown c2 = none := by
  have h2 : cacheShutdown c =
      some { c with cancelled := true, cleanupClosed := true,
                    redisClosed := c.redisClosed || c.useRedis } := by
    simp [cacheShutdown, h]
  exact ⟨_, h2, rfl, rfl, rfl, rfl⟩

/-- Witness for C10: the double-shutdown behaviour at the fresh cache. -/
theorem cacheShutdown_single_use_witness :
    ∃ c2, cacheShutdown emptyCache = some c2 ∧ c2.cancelled = true ∧
      c2.cleanupClosed = true ∧
      c2.redisClosed = (emptyCache.redisClosed || emptyCache.useRedis) ∧
      cacheShutdown c2 = none :=
  cacheShutdown_single_use emptyCache rfl

/-- C5: evaluation of the SubmitJob select at the failing states. After Stop
has closed the queue, the send case is ready and panics when chosen, so a
crash is a possible outcome rather than the claimed error return; while
shutdown is underway (context cancelled, queue open with space) the send case
may still win, so a submission can succeed after shutdown has begun. Only
with the pool running and the queue full is the claimed error-without-crash
behaviour forced (the default case). -/
theorem submitJob_crash_after_stop :
    SubmitOutcome.panicked ∈
      submitOutcomes { qLen := 0, cap := 16, closed := true, cancelled := true } ∧
    SubmitOutcome.enqueued ∈
      submitOutcomes { qLen := 0, cap := 16, closed := false, cancelled := true } ∧
    submitOutcomes { qLen := 16, cap := 16, closed := false, cancelled := false } =
      [SubmitOutcome.errQueueFull] ∧
    submitOutcomes { qLen := 3, cap := 16, closed := false, cancelled := false } =
      [SubmitOutcome.enqueued] := by decide

/-- Draining execution: from any non-exited worker state whose queue channel
is closed, the run that keeps choosing the receive branch processes every
buffered job in order and then exits through the closed-empty arm. -/
theorem wstep_drain_aux (js : List WJob) : ∀ s : WState,
    s.queue = js → s.closed = true → s.exited = false →
    Relation.ReflTransGen WStep s
      { queue := [], closed := s.closed, cancelled := s.cancelled,
        exited := true, processed := s.processed ++ js } := by
  induction js with
  | nil =>
    intro s hq hc he
    have h1 : WStep s { s with exited := true } :=
      WStep.recvClosedEmpty s hq hc he
    have h2 : ({ s with exited := true } : WState) =
        { queue := [], closed := s.closed, cancelled := s.cancelled,
          exited := true, processed := s.processed ++ [] } := by
      cases s; simp_all
    exact h2 ▸ Relation.ReflTransGen.single h1
  | cons j tl ih =>
    intro s hq hc he
    have h1 : WStep s { s with queue := tl, processed := s.processed ++ [j] } :=
      WStep.recvJob s j tl hq he
    have h2 := ih { s with queue := tl, processed := s.processed ++ [j] } rfl hc he
    have heq : (s.processed ++ [j]) ++ tl = s.processed ++ (j :: tl) := by simp
    rw [heq] at h2
    exact Relation.ReflTransGen.head h1 h2

/-- C4 (amended): after Stop cancels the context and closes the queue, an
execution exists in which the workers drain and process every buffered job
and only then exit, and no step ever hard-aborts a job — each worker step
either leaves the processed list unchanged or atomically processes exactly
the head buffered job; but draining is only one possible execution, because
the worker also selects on the cancelled context (see the counterexample). -/
theorem bookProcessor_stop_drain_and_atomicity :
    (∀ js : List WJob, Relation.ReflTransGen WStep (stopState js)
      { queue := [], closed := true, cancelled := true, exited := true,
        processed := js }) ∧
    (∀ s t : WState, WStep s t →
      t.processed = s.processed ∨
        ∃ j rest, s.queue = j :: rest ∧ t.processed = s.processed ++ [j] ∧
          t.queue = rest) := by
  constructor
  · intro js
    simpa [stopState] using wstep_drain_aux js (stopState js) rfl rfl rfl
  · intro s t h
    cases h with
    | recvJob j rest hq he => exact Or.inr ⟨j, rest, hq, rfl, rfl⟩
    | recvJobThenExit j rest hq he hc => exact Or.inr ⟨j, rest, hq, rfl, rfl⟩
    | recvClosedEmpty hq hc he => exact Or.inl rfl
    | ctxExit hc he => exact Or.inl rfl

/-- C4 counterexample: with one job buffered at the moment Stop runs, the
worker may take the cancelled-context select arm and exit immediately,
leaving the accepted job unprocessed — refuting the claim that every job
enqueued before the stop is processed. -/
theorem bookProcessor_stop_discards_buffered_job :
    WStep (stopState [job1])
      { queue := [job1], closed := true, cancelled := true, exited := true,
        processed := [] } ∧
    (stopState [job1]).queue = [job1] ∧
    ({ queue := [job1], closed := true, cancelled := true, exited := true,
       processed := [] } : WState).exited = true ∧
    ({ queue := [job1], closed := true, cancelled := true, exited := true,
       processed := [] } : WState).processed = [] :=
  ⟨WStep.ctxExit (stopState [job1]) rfl rfl, rfl, rfl, rfl⟩

/-- C1: the uniqueness check of CreateBook runs on the raw request ISBN
before normalizeBookData, while the stored row holds the normalized form.
Creating with the plain spelling and then re-creating with the hyphenated
spelling of the same normalized ISBN: the check misses the stored row (raw
and normalized spellings differ as strings), the insert reaches the UNIQUE
isbn column, and the second create fails with the wrapped database error —
not the Conflict already-exists error the claim requires. -/
theorem createBook_uniqueness_check_uses_raw_isbn :
    (createBook st0 req1 0 true true).1 = Except.ok book0 ∧
    normalizeISBN req2.isbn = normalizeISBN req1.isbn ∧
    (req2.isbn == req1.isbn) = false ∧
    existsByISBN (createBook st0 req1 0 true true).2.repo req2.isbn = false ∧
    existsByISBN (createBook st0 req1 0 true true).2.repo
      (normalizeISBN req2.isbn) = true ∧
    (createBook (createBook st0 req1 0 true true).2 req2 1 true true).1 =
      Except.error (.repoErr "pq: duplicate key value violates unique constraint") := by
  decide

/-- C2: InvalidateBook deletes the single-book entry from both tiers and the
list entries from the external tier, but its local-tier heuristic deletes
only keys of byte length 32 while the actual list keys are 38 bytes long
(books: plus 32 hex characters), so the cached list survives in the local
tier and GetBookList still finds it after one and after two invalidations —
refuting the claimed miss state for list keys. -/
theorem invalidateBook_leaves_local_list_entries :
    cacheGetBook (invalidateBook cache1 book0.id) book0.id 0 = none ∧
    liveEntry (invalidateBook cache1 book0.id).redis
      (generateBookListKey emptyFilter) 0 = none ∧
    cacheGetBookList (invalidateBook cache1 book0.id) emptyFilter 0 = some resp0 ∧
    cacheGetBookList (invalidateBook (invalidateBook cache1 book0.id) book0.id)
      emptyFilter 0 = some resp0 ∧
    utf8Len (generateBookListKey emptyFilter) = 38 := by
  decide

/-- Every generated list key matches the books:* scan pattern. -/
theorem globStarMatch_books (f : BookFilter) :
    globStarMatch "books:*" (generateBookListKey f) = true := by
  have hdata : (generateBookListKey f).data =
      "books:".data ++ (md5hex (filterString f)).data := by
    simp [generateBookListKey, String.data_append]
  have h1 : globStarMatch "books:*" (generateBookListKey f) =
      ("books:".data.isPrefixOf (generateBookListKey f).data) := rfl
  rw [h1, hdata]
  exact List.isPrefixOf_iff_prefix.mpr (List.prefix_append _ _)

/-- Every external-tier single-book key matches the book:* scan pattern. -/
theorem globStarMatch_book (id : String) :
    globStarMatch "book:*" (redisBookKey id) = true := by
  have hdata : (redisBookKey id).data = "book:".data ++ id.data := by
    simp [redisBookKey, String.data_append]
  have h1 : globStarMatch "book:*" (redisBookKey id) =
      ("book:".data.isPrefixOf (redisBookKey id).data) := rfl
  rw [h1, hdata]
  exact List.isPrefixOf_iff_prefix.mpr (List.prefix_append _ _)

/-- After Clear, every list lookup misses in both tiers. -/
theorem cacheClear_getBookList (c : CacheState) (f : BookFilter) (t : Nat) :
    cacheGetBookList (cacheClear c) f t = none := by
  unfold cacheGetBookList cacheClear liveEntry
  by_cases hr : c.useRedis <;> simp [hr, globStarMatch_books f]

/-- After Clear, every single-book lookup misses in both tiers. -/
theorem cacheClear_getBook (c : CacheState) (id : String) (t : Nat) :
    cacheGetBook (cacheClear c) id t = none := by
  unfold cacheGetBook cacheClear liveEntry
  by_cases hr : c.useRedis <;> simp [hr, globStarMatch_book id]

/-- Evaluation of the successful create on the fixture state: the returned
book and the resulting state, for every external-write and job-submission
outcome. -/
theorem createBook_fixture_eval (redisOk submitOk : Bool) :
    createBook st0 req1 0 redisOk submitOk =
      (Except.ok book0,
       { repo := { books := [book0], nextId := st0.repo.nextId },
         cache := cacheClear (cacheSetBook st0.cache book0 0 redisOk) }) := by
  cases redisOk <;> cases submitOk <;> rfl

/-- C3: after a successful CreateBook the code calls SetBook with the new
book and then Clear, and Clear wipes the entire cache — the local tier map
and the book:*, books:* external keys — so the new book is NOT present in
the cache afterwards (GetBook misses), refuting the claimed presence. The
list caches are indeed all cleared, and the submission outcome of the notify
job (submitOk) never changes the CreateBook result. -/
theorem createBook_new_book_not_cached :
    ∀ redisOk submitOk : Bool,
      (createBook st0 req1 0 redisOk submitOk).1 = Except.ok book0 ∧
      cacheGetBook (createBook st0 req1 0 redisOk submitOk).2.cache book0.id 0 =
        none ∧
      (∀ f t, cacheGetBookList (createBook st0 req1 0 redisOk submitOk).2.cache
        f t = none) := by
  intro redisOk submitOk
  rw [createBook_fixture_eval redisOk submitOk]
  exact ⟨rfl, cacheClear_getBook _ _ _, fun f t => cacheClear_getBookList _ f t⟩

/-- C9 counterexample: a filter with limit 1 is in range, so GetAllBooks
queries the repository with effective limit 1 — but 1 is not inside the
half-open interval (1, 100] the claim states the effective limit lies in. -/
theorem getAllBooks_limit_one_outside_claimed_interval :
    (getAllBooks emptyCache (fun _ => ([], 0)) { emptyFilter with limit := 1 }
      0 true).1.limit = 1 ∧
    ¬((1 : Int) < 1) := by
  constructor
  · decide
  · decide

/-- C9 (amended): on a cache miss GetAllBooks queries the repository with an
effective limit in [1, 100] — the original limit when already in that range,
the default 50 when the original is at most 0 or above 100 — and an effective
offset of at least 0 (the original offset unless negative, then 0), and both
the returned envelope and the cached one carry exactly these effective
values together with the repository page and total. -/
theorem getAllBooks_effective_pagination (c : CacheState)
    (repoGetAll : BookFilter → List Book × Int) (f : BookFilter) (now : Nat)
    (redisOk : Bool) (hmiss : cacheGetBookList c f now = none) :
    (1 ≤ (clampFilter f).limit ∧ (clampFilter f).limit ≤ 100 ∧
      0 ≤ (clampFilter f).offset) ∧
    (1 ≤ f.limit ∧ f.limit ≤ 100 → (clampFilter f).limit = f.limit) ∧
    ((f.limit ≤ 0 ∨ 100 < f.limit) → (clampFilter f).limit = 50) ∧
    (f.offset < 0 → (clampFilter f).offset = 0) ∧
    (0 ≤ f.offset → (clampFilter f).offset = f.offset) ∧
    (getAllBooks c repoGetAll f now redisOk).1 =
      { books := (repoGetAll (clampFilter f)).1,
        total := (repoGetAll (clampFilter f)).2,
        limit := (clampFilter f).limit, offset := (clampFilter f).offset } ∧
    (getAllBooks c repoGetAll f now redisOk).2 =
      cacheSetBookList c (clampFilter f)
        (getAllBooks c repoGetAll f now redisOk).1 now redisOk := by
  have hga : getAllBooks c repoGetAll f now redisOk =
      ({ books := (repoGetAll (clampFilter f)).1,
         total := (repoGetAll (clampFilter f)).2,
         limit := (clampFilter f).limit, offset := (clampFilter f).offset },
       cacheSetBookList c (clampFilter f)
         { books := (repoGetAll (clampFilter f)).1,
           total := (repoGetAll (clampFilter f)).2,
           limit := (clampFilter f).limit, offset := (clampFilter f).offset }
         now redisOk) := by
    unfold getAllBooks
    rw [hmiss]
  have hl : (clampFilter f).limit =
      if f.limit ≤ 0 || f.limit > 100 then 50 else f.limit := rfl
  have ho : (clampFilter f).offset =
      if f.offset < 0 then 0 else f.offset := rfl
  by_cases h1 : f.limit ≤ 0 <;> by_cases h2 : f.limit > 100 <;>
    by_cases h3 : f.offset < 0 <;>
    refine ⟨?_, ?_, ?_, ?_, ?_, by rw [hga], by rw [hga]⟩ <;>
    simp [hl, ho, h1, h2, h3] <;> omega

/-- Witness for C9: the all-out-of-range filter (limit -5, offset -3) misses
the fresh cache and comes back with the default limit 50 and offset 0. -/
theorem getAllBooks_effective_pagination_witness :
    (getAllBooks emptyCache (fun _ => ([], 0))
      { emptyFilter with limit := -5, offset := -3 } 0 true).1 =
      { books := [], total := 0, limit := 50, offset := 0 } :=
  ((getAllBooks_effective_pagination emptyCache (fun _ => ([], 0))
    { emptyFilter with limit := -5, offset := -3 } 0 true
    (by decide)).2.2.2.2.2.1).trans (by decide)

/-- C7 counterexample: with the external tier holding a stale row for the id
and the external write of SetBook failing (best-effort, logged and ignored),
the following GetBook answers from the external tier with the stale value,
not with the book just set — refuting the claimed round-trip for every
cache state. -/
theorem setBook_stale_external_value :
    cacheGetBook (cacheSetBook cacheStale book0 0 false) book0.id 0 =
      some staleBook ∧
    (staleBook == book0) = false := by decide

/-- C7 (amended): SetBook then GetBook within the TTL returns exactly the set
book provided the external tier cannot answer with a stale row — that is,
when the external write succeeded, or the external tier holds no live entry
under that book key, or the external tier is not in use; and in every case
SetBook writes the book into the local tier with expiry now + TTL. -/
theorem setBook_roundtrip (c : CacheState) (b : Book) (now t : Nat)
    (redisOk : Bool) (htime : t ≤ now + c.ttl)
    (hext : c.useRedis = true →
      redisOk = true ∨ liveEntry c.redis (redisBookKey b.id) t = none) :
    cacheGetBook (cacheSetBook c b now redisOk) b.id t = some b ∧
    (cacheSetBook c b now redisOk).inMemory b.id =
      some ⟨.bookData b, now + c.ttl⟩ := by
  have hnotexp : ¬(t > now + c.ttl) := by omega
  constructor
  · by_cases hr : c.useRedis = true
    · by_cases hok : redisOk = true
      · simp [cacheGetBook, cacheSetBook, liveEntry, hr, hok, hnotexp]
      · rcases hext hr with h | h
        · exact absurd h hok
        · rcases hred : c.redis (redisBookKey b.id) with _ | e
          · simp [cacheGetBook, cacheSetBook, liveEntry, hr, hok, hred, hnotexp]
          · have hexp : t > e.expiresAt := by
              by_contra hc
              simp [liveEntry, hred, hc] at h
            simp [cacheGetBook, cacheSetBook, liveEntry, hr, hok, hred, hexp,
              hnotexp]
    · simp [cacheGetBook, cacheSetBook, liveEntry, hr, hnotexp]
  · simp [cacheSetBook]

/-- Witness for C7: the round-trip at the fresh cache with a successful
external write, read back at the write instant. -/
theorem setBook_roundtrip_witness :
    cacheGetBook (cacheSetBook emptyCache book0 0 true) book0.id 0 =
      some book0 ∧
    (cacheSetBook emptyCache book0 0 true).inMemory book0.id =
      some ⟨.bookData book0, 0 + emptyCache.ttl⟩ :=
  setBook_roundtrip emptyCache book0 0 0 true (by omega) (fun _ => Or.inl rfl)

/-- Re-reading a digit appended on the right. -/
theorem parseNat_append_digit (cs : List Char) (c : Char) :
    parseNat (cs ++ [c]) = 10 * parseNat cs + (c.toNat - 48) := by
  simp [parseNat, List.foldl_append]

/-- The code of a decimal digit character. -/
theorem digitChar_toNat (d : Nat) (h : d < 10) : (digitChar d).toNat = 48 + d := by
  interval_cases d <;> rfl

/-- The decimal rendering re-reads to the same number whenever the fuel
covers the input. -/
theorem natCharsFuel_parse : ∀ fuel n, n < fuel →
    parseNat (natCharsFuel fuel n) = n := by
  intro fuel
  induction fuel with
  | zero => intro n h; omega
  | succ f ih =>
    intro n h
    by_cases h10 : n < 10
    · simp [natCharsFuel, h10, parseNat, digitChar_toNat n h10]
    · have hd : n / 10 < f := by
        have := Nat.div_lt_self (show 0 < n by omega) (show 1 < 10 by omega)
        omega
      have hstep : natCharsFuel (f + 1) n =
          natCharsFuel f (n / 10) ++ [digitChar (n % 10)] := by
        simp [natCharsFuel, h10]
      rw [hstep, parseNat_append_digit, ih (n / 10) hd,
        digitChar_toNat (n % 10) (Nat.mod_lt _ (by omega))]
      omega

/-- Decimal rendering round-trips through parsing. -/
theorem parseNat_natChars (n : Nat) : parseNat (natChars n) = n :=
  natCharsFuel_parse (n + 1) n (Nat.lt_succ_self n)

/-- The first character of a decimal rendering is a digit (code at least 48),
so it is never the minus sign. -/
theorem natCharsFuel_head_digit : ∀ fuel n, 0 < fuel →
    ∃ c cs, natCharsFuel fuel n = c :: cs ∧ 48 ≤ c.toNat := by
  intro fuel
  induction fuel with
  | zero => intro n h; omega
  | succ f ih =>
    intro n _
    by_cases h10 : n < 10
    · refine ⟨digitChar n, [], by simp [natCharsFuel, h10], ?_⟩
      rw [digitChar_toNat n h10]; omega
    · by_cases hf : 0 < f
      · obtain ⟨c, cs, hc, hge⟩ := ih (n / 10) hf
        exact ⟨c, cs ++ [digitChar (n % 10)], by simp [natCharsFuel, h10, hc], hge⟩
      · have hf0 : f = 0 := by omega
        refine ⟨digitChar (n % 10), [], by simp [natCharsFuel, h10, hf0], ?_⟩
        rw [digitChar_toNat (n % 10) (Nat.mod_lt _ (by omega))]; omega

/-- Decimal renderings of distinct naturals differ. -/
theorem natChars_inj (m n : Nat) (h : natChars m = natChars n) : m = n := by
  have h2 := congrArg parseNat h
  rwa [parseNat_natChars, parseNat_natChars] at h2

/-- Go %d renderings of distinct ints differ (at the character level). -/
theorem intToString_data_inj (m n : Int)
    (h : (intToString m).data = (intToString n).data) : m = n := by
  unfold intToString natToString at h
  by_cases hm : m < 0 <;> by_cases hn : n < 0 <;>
    simp only [hm, hn, if_true, if_false, ite_true, ite_false,
      String.data_append] at h
  · have h2 : natChars (-m).toNat = natChars (-n).toNat := by simpa using h
    have := natChars_inj _ _ h2
    omega
  · exfalso
    obtain ⟨c, cs, hc, hge⟩ :=
      natCharsFuel_head_digit (n.toNat + 1) n.toNat (by omega)
    have hn2 : natChars n.toNat = c :: cs := hc
    rw [hn2] at h
    have hhead : '-' = c := by
      have h3 := congrArg (fun l => l.head?) h
      simpa using h3
    have h45 : c.toNat = 45 := by rw [← hhead]; rfl
    omega
  · exfalso
    obtain ⟨c, cs, hc, hge⟩ :=
      natCharsFuel_head_digit (m.toNat + 1) m.toNat (by omega)
    have hm2 : natChars m.toNat = c :: cs := hc
    rw [hm2] at h
    have hhead : c = '-' := by
      have h3 := congrArg (fun l => l.head?) h
      simpa using h3
    have h45 : c.toNat = 45 := by rw [hhead]; rfl
    omega
  · have h2 : natChars m.toNat = natChars n.toNat := by simpa using h
    have := natChars_inj _ _ h2
    omega

/-- Two filters agreeing on every field but the offset and hashing to the
same canonical filter string in fact have the same offset: distinct offsets
always feed distinct strings to MD5. -/
theorem filterString_offset_faithful (f g : BookFilter)
    (ha : f.author = g.author) (hg : f.genre = g.genre)
    (hl : f.language = g.language) (hav : f.available = g.available)
    (hlim : f.limit = g.limit) (h : filterString f = filterString g) :
    f.offset = g.offset := by
  unfold filterString at h
  rw [ha, hg, hl, hav, hlim] at h
  have hdata := congrArg String.data h
  simp only [String.data_append] at hdata
  exact intToString_data_inj _ _ (List.append_cancel_left hdata)

/-- C6 counterexample: after SetBook on the fresh cache, the local tier holds
the book under the bare id string and holds nothing under book: plus the id,
while the external tier uses book: plus the id — so the claimed single-record
key shape holds in the external tier only, not in both tiers. -/
theorem bookKey_local_tier_bare_id :
    (cacheSetBook emptyCache book0 0 true).inMemory (redisBookKey book0.id) =
      none ∧
    ((cacheSetBook emptyCache book0 0 true).inMemory book0.id).isSome = true ∧
    ((cacheSetBook emptyCache book0 0 true).redis (redisBookKey book0.id)).isSome =
      true := by decide

/-- C6 (amended): the list key is books: plus the lowercase hex MD5 of the
canonical filter string exactly as the spec words it, in both tiers; filters
with equal field values give equal keys; filters differing only in Offset
feed distinct strings to the hash (and distinct keys on the checked concrete
pair, offsets 0 and 1 of the empty filter); the single-record key is book:
plus the id in the external tier, while the local tier keys single records by
the bare id string. -/
theorem listKey_format_and_tiers :
    (∀ f, generateBookListKey f = specListKey f) ∧
    (∀ f g : BookFilter, f = g →
      generateBookListKey f = generateBookListKey g) ∧
    (∀ f g : BookFilter, f.author = g.author → f.genre = g.genre →
      f.language = g.language → f.available = g.available →
      f.limit = g.limit → filterString f = filterString g →
      f.offset = g.offset) ∧
    ((generateBookListKey emptyFilter ==
      generateBookListKey { emptyFilter with offset := 1 }) = false) ∧
    (∀ id, redisBookKey id = "book:" ++ id) ∧
    (∀ (c : CacheState) (b : Book) (now : Nat) (ok : Bool),
      (cacheSetBook c b now ok).inMemory b.id =
        some ⟨.bookData b, now + c.ttl⟩ ∧
      (c.useRedis = true → ok = true →
        (cacheSetBook c b now ok).redis (redisBookKey b.id) =
          some ⟨.bookData b, now + c.ttl⟩)) := by
  refine ⟨?_, ?_, ?_, by decide, fun id => rfl, ?_⟩
  · intro f
    unfold generateBookListKey specListKey filterString formatBool
    rcases f.available with _ | b
    · rfl
    · cases b <;> rfl
  · intro f g h
    rw [h]
  · exact filterString_offset_faithful
  · intro c b now ok
    refine ⟨by simp [cacheSetBook], fun hr hok => by simp [cacheSetBook, hr, hok]⟩

/-- The assignment fold does not change the slice length. -/
theorem setFold_length {α : Type} (l : List (Nat × α)) (init : List α) :
    (setFold l init).length = init.length := by
  induction l generalizing init with
  | nil => rfl
  | cons hd tl ih =>
    rw [show setFold (hd :: tl) init = setFold tl (init.set hd.1 hd.2) from rfl,
      ih, List.length_set]

/-- Positions whose index is never assigned keep their initial value. -/
theorem setFold_getElem_not_mem {α : Type} (l : List (Nat × α))
    (init : List α) (i : Nat) (h : i ∉ l.map Prod.fst) :
    (setFold l init)[i]? = init[i]? := by
  induction l generalizing init with
  | nil => rfl
  | cons hd tl ih =>
    have hne : hd.1 ≠ i := fun he => h (by simp [he])
    have h2 : i ∉ tl.map Prod.fst := fun hmm => h (by simp [hmm])
    rw [show setFold (hd :: tl) init = setFold tl (init.set hd.1 hd.2) from rfl,
      ih _ h2, List.getElem?_set_ne hne]

/-- With no index assigned twice, an in-range position ends with exactly the
value tagged with its index. -/
theorem setFold_getElem_assign {α : Type} (l : List (Nat × α))
    (init : List α) (i : Nat) (v : α) (hnd : (l.map Prod.fst).Nodup)
    (hmem : (i, v) ∈ l) (hlen : i < init.length) :
    (setFold l init)[i]? = some v := by
  induction l generalizing init with
  | nil => cases hmem
  | cons hd tl ih =>
    rw [show setFold (hd :: tl) init = setFold tl (init.set hd.1 hd.2) from rfl]
    rcases List.mem_cons.mp hmem with he | hmm
    · have hni : i ∉ tl.map Prod.fst := by
        rw [← he] at hnd
        exact (List.nodup_cons.mp hnd).1
      rw [setFold_getElem_not_mem _ _ _ hni, ← he]
      exact List.getElem?_set_self (by simpa using hlen)
    · have hnd2 : (tl.map Prod.fst).Nodup := (List.nodup_cons.mp hnd).2
      exact ih _ hnd2 hmm (by rwa [List.length_set])

/-- The simultaneous fold of the collection loop equals one assignment fold
per slice. -/
theorem collectResults_eq_setFold (n : Nat) (recv : List (Nat × CreateResult)) :
    collectResults n recv =
      (setFold (recv.map fun ir => (ir.1, resBook ir.2)) (List.replicate n none),
       setFold (recv.map fun ir => (ir.1, resErr ir.2)) (List.replicate n none)) := by
  suffices h : ∀ (l : List (Nat × CreateResult)) (b : List (Option Book))
      (e : List (Option SvcErr)),
      l.foldl (fun acc ir =>
        (acc.1.set ir.1 (resBook ir.2), acc.2.set ir.1 (resErr ir.2))) (b, e) =
        (setFold (l.map fun ir => (ir.1, resBook ir.2)) b,
         setFold (l.map fun ir => (ir.1, resErr ir.2)) e) from h recv _ _
  intro l
  induction l with
  | nil => intro b e; rfl
  | cons hd tl ih => intro b e; exact ih _ _

/-- C8: for every request list and every arrival order of the tagged results
(the channel delivers some permutation of the indexed per-request CreateBook
outcomes), the collection loop of BulkCreateBooks returns two slices of the
input length, positionally aligned with the input: slot i holds the created
book with a nil error when request i succeeded, and a nil book with the error
when it failed, regardless of completion order; and the concurrency semaphore
of the fan-out holds 10 slots. -/
theorem bulkCreateBooks_positional_alignment (rs : List CreateResult)
    (p : List (Nat × CreateResult)) (hne : rs ≠ [])
    (hp : p.Perm (indexedResults rs)) :
    (collectResults rs.length p).1.length = rs.length ∧
    (collectResults rs.length p).2.length = rs.length ∧
    (collectResults rs.length p).1 = rs.map resBook ∧
    (collectResults rs.length p).2 = rs.map resErr ∧
    (∀ i (h : i < rs.length),
      (collectResults rs.length p).1[i]? = some (resBook rs[i]) ∧
      (collectResults rs.length p).2[i]? = some (resErr rs[i])) ∧
    bulkSemaphoreCap = 10 := by
  have hfst : (indexedResults rs).map Prod.fst = List.range rs.length := by
    unfold indexedResults
    exact List.map_fst_zip _ _ (by simp)
  have hkeys : (p.map Prod.fst).Perm (List.range rs.length) := by
    have h1 := hp.map Prod.fst
    rwa [hfst] at h1
  have hnd : (p.map Prod.fst).Nodup :=
    hkeys.nodup_iff.mpr (List.nodup_range _)
  have hmem : ∀ i (h : i < rs.length), (i, rs[i]) ∈ p := by
    intro i h
    apply hp.mem_iff.mpr
    have hz : (indexedResults rs)[i]? = some (i, rs.get ⟨i, h⟩) := by
      unfold indexedResults
      apply List.getElem?_zip_eq_some.mpr
      exact ⟨List.getElem?_range h, List.getElem?_eq_getElem h⟩
    obtain ⟨h2, h3⟩ := List.getElem?_eq_some.mp hz
    exact h3 ▸ List.getElem_mem h2
  have hbooks : (collectResults rs.length p).1 = rs.map resBook := by
    rw [collectResults_eq_setFold]
    apply List.ext_getElem?
    intro i
    by_cases h : i < rs.length
    · rw [setFold_getElem_assign _ _ i (resBook rs[i])
        (by simpa [List.map_map, Function.comp] using hnd)
        (by simpa using List.mem_map_of_mem (fun ir => (ir.1, resBook ir.2)) (hmem i h))
        (by simpa using h)]
      simp [List.getElem?_eq_getElem, h]
    · rw [List.getElem?_eq_none, List.getElem?_eq_none]
      · simpa using by omega
      · rw [setFold_length]
        simpa using by omega
  have herrs : (collectResults rs.length p).2 = rs.map resErr := by
    rw [collectResults_eq_setFold]
    apply List.ext_getElem?
    intro i
    by_cases h : i < rs.length
    · rw [setFold_getElem_assign _ _ i (resErr rs[i])
        (by simpa [List.map_map, Function.comp] using hnd)
        (by simpa using List.mem_map_of_mem (fun ir => (ir.1, resErr ir.2)) (hmem i h))
        (by simpa using h)]
      simp [List.getElem?_eq_getElem, h]
    · rw [List.getElem?_eq_none, List.getElem?_eq_none]
      · simpa using by omega
      · rw [setFold_length]
        simpa using by omega
  refine ⟨by rw [hbooks]; simp, by rw [herrs]; simp, hbooks, herrs, ?_, rfl⟩
  intro i h
  rw [hbooks, herrs]
  constructor <;> simp [List.getElem?_eq_getElem, h]

/-- Witness for C8: three requests with the middle one failing, delivered in
reverse completion order, collected into slices aligned with request order. -/
theorem bulkCreateBooks_positional_alignment_witness :
    (collectResults 3 [(2, Except.ok staleBook),
      (1, Except.error (SvcErr.validationErr "title is required")),
      (0, Except.ok book0)]).1 = [some book0, none, some staleBook] ∧
    (collectResults 3 [(2, Except.ok staleBook),
      (1, Except.error (SvcErr.validationErr "title is required")),
      (0, Except.ok book0)]).2 =
      [none, some (SvcErr.validationErr "title is required"), none] := by
  have h := bulkCreateBooks_positional_alignment
    [Except.ok book0, Except.error (SvcErr.validationErr "title is required"),
     Except.ok staleBook]
    [(2, Except.ok staleBook),
     (1, Except.error (SvcErr.validationErr "title is required")),
     (0, Except.ok book0)]
    (by decide) (by decide)
  exact ⟨h.2.2.1.trans (by decide), h.2.2.2.1.trans (by decide)⟩

end Libmngmt
